import Mathlib

/-!
Shallow embedding of the deterministic match-scoring engine
(`api/utils/matchScore.js`) of the Job-Search-Engine repository.

JavaScript numbers are modelled as rationals (`ℚ`); JavaScript strings as
Lean `String` (lists of characters); `null`/`undefined` numeric fields as
`Option ℚ`; absent string fields as `""` (the scorer itself coerces absent
strings with `|| ""`).  `Math.round` is modelled as `⌊q + 1/2⌋`.
-/

/- Batteries marks rational arithmetic `@[irreducible]`; restore the default
reducibility so that proofs by `decide` can evaluate concrete scores. -/
attribute [local semireducible] Rat.inv Rat.mul Rat.add Rat.sub

set_option maxRecDepth 100000
set_option maxHeartbeats 1000000

namespace MatchScore

/-- The JS `\s` whitespace class (the characters matched by `/\s/`):
space, tab, LF, VT, FF, CR, NBSP, and the Unicode space separators. -/
def isJsSpace (c : Char) : Bool :=
  c.toNat = 0x20 || c.toNat = 0x9 || c.toNat = 0xa || c.toNat = 0xb ||
  c.toNat = 0xc || c.toNat = 0xd || c.toNat = 0xa0 || c.toNat = 0x1680 ||
  (0x2000 ≤ c.toNat && c.toNat ≤ 0x200a) ||
  c.toNat = 0x2028 || c.toNat = 0x2029 || c.toNat = 0x202f ||
  c.toNat = 0x205f || c.toNat = 0x3000 || c.toNat = 0xfeff

/-- The character class `[a-z0-9+.#/\s-]` kept by `normalizeText`. -/
def isAllowedChar (c : Char) : Bool :=
  ('a'.toNat ≤ c.toNat && c.toNat ≤ 'z'.toNat) ||
  ('0'.toNat ≤ c.toNat && c.toNat ≤ '9'.toNat) ||
  c == '+' || c == '.' || c == '#' || c == '/' || isJsSpace c || c == '-'

/-- Model of `String.prototype.toLowerCase`, restricted to ASCII (all
strings the claims exercise are ASCII). -/
def jsLower (s : String) : String := String.mk (s.data.map Char.toLower)

/-- Replace each maximal run of whitespace by a single space
(JS `replace(/\s+/g, " ")`).  The boolean records whether the previous
character was part of a whitespace run. -/
def collapseSpacesAux : List Char → Bool → List Char
  | [], _ => []
  | c :: rest, prevSpace =>
    if isJsSpace c then
      if prevSpace then collapseSpacesAux rest true
      else ' ' :: collapseSpacesAux rest true
    else c :: collapseSpacesAux rest false

/-- Model of `String.prototype.trim`: drop whitespace at both ends. -/
def trimChars (cs : List Char) : List Char :=
  ((cs.dropWhile isJsSpace).reverse.dropWhile isJsSpace).reverse

/-- The function `normalizeText` from `matchScore.js`: lower-case, map curly
apostrophes to straight ones, replace every character outside
`[a-z0-9+.#/\s-]` by a space, collapse whitespace runs, trim. -/
def normalizeText (s : String) : String :=
  let step1 := s.data.map Char.toLower
  let step2 := step1.map (fun c => if c.toNat = 0x2019 || c.toNat = 39 then Char.ofNat 39 else c)
  let step3 := step2.map (fun c => if isAllowedChar c then c else ' ')
  String.mk (trimChars (collapseSpacesAux step3 false))

/-- Whether `needle` occurs at the start of `hay`. -/
def strHasPre : List Char → List Char → Bool
  | [], _ => true
  | _ :: _, [] => false
  | a :: as, b :: bs => a == b && strHasPre as bs

/-- Whether `hay` has `needle` somewhere as a contiguous run. -/
def charsInclude : List Char → List Char → Bool
  | [], needle => strHasPre needle []
  | hay@(_ :: rest), needle => strHasPre needle hay || charsInclude rest needle

/-- Model of `String.prototype.includes`. -/
def strIncludes (s sub : String) : Bool := charsInclude s.data sub.data

/-- The `STOP_WORDS` set from `matchScore.js`. -/
def STOP_WORDS : List String :=
  ["the", "a", "an", "and", "or", "to", "for", "of", "in", "on", "with", "at",
   "from", "by", "as", "is", "are", "be", "this", "that", "we", "you", "your",
   "our", "they", "their", "will", "can", "may", "able", "about", "into"]

/-- The `TITLE_SYNONYMS` table from `matchScore.js`. -/
def TITLE_SYNONYMS : List (List String) :=
  [["software engineer", "software developer", "swe", "developer"],
   ["frontend", "front-end", "ui", "react developer", "web developer"],
   ["backend", "back-end", "api", "node developer", "server developer"],
   ["fullstack", "full-stack", "mern"],
   ["devops", "site reliability", "sre", "platform engineer"],
   ["qa", "quality assurance", "test engineer", "automation engineer"]]

/-- Split a character list on the space character (JS `split(" ")` applied
to normalized text, whose only whitespace is single spaces). -/
def splitOnSpaceAux : List Char → List Char → List String
  | [], acc => [String.mk acc.reverse]
  | c :: rest, acc =>
    if c == ' ' then String.mk acc.reverse :: splitOnSpaceAux rest []
    else splitOnSpaceAux rest (c :: acc)

/-- The function `tokens` from `matchScore.js`: normalized words minus stop
words, as a set (modelled as a duplicate-free list). -/
def tokens (s : String) : List String :=
  ((splitOnSpaceAux (normalizeText s).data []).filter
    (fun w => w ≠ "" && !(STOP_WORDS.contains w))).dedup

/-- The function `jaccard` from `matchScore.js` (on token sets). -/
def jaccard (setA setB : List String) : ℚ :=
  if setA.length = 0 ∧ setB.length = 0 then 0
  else
    let inter := (setA.filter (fun x => setB.contains x)).length
    let union := setA.length + setB.length - inter
    if union = 0 then 0 else (inter : ℚ) / (union : ℚ)

/-- The function `mapTitleToGroup` from `matchScore.js`: first synonym group
one of whose members occurs in the normalized title; its canonical (first)
label. -/
def mapTitleToGroup (title : String) : String :=
  let t := normalizeText title
  match TITLE_SYNONYMS.find? (fun group => group.any (fun g => strIncludes t g)) with
  | some group => group.headD ""
  | none => ""

/-- JS `Math.max` on two rationals (an `if` so that proofs by `decide` can
evaluate it; equal to `max` by `jsMax_eq`). -/
def jsMax (a b : ℚ) : ℚ := if a ≤ b then b else a

/-- JS `Math.min` on two rationals. -/
def jsMin (a b : ℚ) : ℚ := if a ≤ b then a else b

/-- JS `Math.min` on two integers. -/
def jsMinInt (a b : ℤ) : ℤ := if a ≤ b then a else b

/-- The function `clamp` from `matchScore.js`:
`Math.max(min, Math.min(max, n))`. -/
def clamp (n mn mx : ℚ) : ℚ := jsMax mn (jsMin mx n)

/-- JS `Math.round` on rationals: `⌊q + 1/2⌋` (via the executable
`Rat.floor`). -/
def jsRound (q : ℚ) : ℤ := (q + 1/2).floor

/-- `Number.MAX_SAFE_INTEGER`. -/
def maxSafeInteger : ℚ := 9007199254740991

/-- JS truthiness of a nullable number (`null`, `undefined` and `0` are
falsy; `NaN` does not arise in the rational model). -/
def truthyNum : Option ℚ → Bool
  | none => false
  | some q => decide (q ≠ 0)

/-- JS `s || d` on strings: `d` when `s` is empty. -/
def jsOrStr (s d : String) : String := if s = "" then d else s

/-- A validated client profile (`clientProfileModel.js`): the fields read by
`scoreJobForClient`.  List fields default to `[]`, `workType` to `"any"`,
salaries to absent, matching the zod schema's defaults. -/
structure CandidateProfile where
  clientId : String := ""
  skills : List String := []
  mustHaveSkills : List String := []
  niceToHaveSkills : List String := []
  preferredTitles : List String := []
  preferredIndustries : List String := []
  preferredCountries : List String := []
  preferredCities : List String := []
  workType : String := "any"
  salaryMin : Option ℚ := none
  salaryMax : Option ℚ := none
deriving DecidableEq, Repr

/-- A normalized job (`jobModel.js` / `normalizedJobSchema`): the fields
read by `scoreJobForClient`.  Absent optional strings are `""` (the scorer
coerces with `|| ""`); `workType` defaults to `"unknown"` per the schema. -/
structure NormalizedJob where
  id : String := ""
  source : String := ""
  title : String := ""
  company : String := ""
  industry : String := ""
  workType : String := "unknown"
  country : String := ""
  city : String := ""
  salaryMin : Option ℚ := none
  salaryMax : Option ℚ := none
  description : String := ""
  postedAt : String := ""
deriving DecidableEq, Repr

/-- The `breakdown` object assembled by `scoreJobForClient`.  The five
sub-score fields hold the individually `Math.round`ed values the code
stores. -/
structure Breakdown where
  mustHaveMatched : List String
  mustHaveMissing : List String
  skillsMatched : List String
  mustHaveRatio : Option ℚ
  skillScore : ℤ
  titleScore : ℤ
  salaryScore : ℤ
  locationWorkScore : ℤ
  industryScore : ℤ
deriving DecidableEq, Repr

/-- The value returned by `scoreJobForClient`. -/
structure ScoreResult where
  score : ℤ
  pass : Bool
  hardReject : Bool
  breakdown : Breakdown
  reasons : List String
deriving DecidableEq, Repr

/-- `buildSkillSetFromClient` from `matchScore.js`: the union of all three
skill lists, normalized, empties dropped, as a set. -/
def buildSkillSetFromClient (client : CandidateProfile) : List String :=
  (((client.skills ++ client.mustHaveSkills ++ client.niceToHaveSkills).map normalizeText).filter
    (fun ns => ns ≠ "")).dedup

/-- `extractMatchedSkills` from `matchScore.js`: the skills of length ≥ 2
whose normalized form occurs in the normalized job text. -/
def extractMatchedSkills (jobText : String) (skillSet : List String) : List String :=
  let text := normalizeText jobText
  skillSet.filter (fun sk => decide (2 ≤ sk.length) && strIncludes text sk)

/-- The `mustHave` list of `scoreJobForClient`: normalized must-have skills
with empty normalizations dropped (`.map(normalizeText).filter(Boolean)`). -/
def mustHave (client : CandidateProfile) : List String :=
  (client.mustHaveSkills.map normalizeText).filter (fun s => s ≠ "")

/-- The combined text the skill matcher scans: `` `${jobTitle}\n${jobDesc}` ``. -/
def jobTextForSkills (job : NormalizedJob) : String :=
  job.title ++ "\n" ++ job.description

/-- The `matched` set of `scoreJobForClient`. -/
def matchedSkills (client : CandidateProfile) (job : NormalizedJob) : List String :=
  extractMatchedSkills (jobTextForSkills job) (buildSkillSetFromClient client)

/-- The `matchedMust` list of `scoreJobForClient`. -/
def matchedMust (client : CandidateProfile) (job : NormalizedJob) : List String :=
  (mustHave client).filter (fun s => (matchedSkills client job).contains s)

/-- The `missingMust` list of `scoreJobForClient`. -/
def missingMust (client : CandidateProfile) (job : NormalizedJob) : List String :=
  (mustHave client).filter (fun s => !((matchedSkills client job).contains s))

/-- `breakdown.mustHaveRatio`: `matchedMust.length / mustHave.length`, or
`null` when there are no must-have skills. -/
def mustHaveRatio (client : CandidateProfile) (job : NormalizedJob) : Option ℚ :=
  if 0 < (mustHave client).length then
    some (((matchedMust client job).length : ℚ) / ((mustHave client).length : ℚ))
  else none

/-- The `hardReject` flag: must-haves present and their match ratio below
0.6. -/
def hardReject (client : CandidateProfile) (job : NormalizedJob) : Bool :=
  decide (0 < (mustHave client).length) &&
  decide ((((matchedMust client job).length : ℚ) / ((mustHave client).length : ℚ)) < 3/5)

/-- The reason emitted on hard rejection: up to 8 missing must-have skills,
with an ellipsis marker when more are missing. -/
def rejectedReason (missing : List String) : String :=
  "Rejected: missing must-have skills (" ++ String.intercalate ", " (missing.take 8) ++
  (if 8 < missing.length then "..." else "") ++ ")"

/-- The warning emitted when some (but not rejection-many) must-have skills
are missing. -/
def warningReason (missing : List String) : String :=
  "Warning: missing some must-have skills (" ++ String.intercalate ", " missing ++ ")"

/-- The reasons pushed by the must-have section of `scoreJobForClient`. -/
def mustHaveReasons (client : CandidateProfile) (job : NormalizedJob) : List String :=
  if 0 < (mustHave client).length then
    if (((matchedMust client job).length : ℚ) / ((mustHave client).length : ℚ)) < 3/5 then
      [rejectedReason (missingMust client job)]
    else if 0 < (missingMust client job).length then
      [warningReason (missingMust client job)]
    else []
  else []

/-- `totalSkillsMentioned`: `clientSkillSet.size || 1`. -/
def totalSkillsMentioned (client : CandidateProfile) : ℕ :=
  if (buildSkillSetFromClient client).length = 0 then 1
  else (buildSkillSetFromClient client).length

/-- `overallRatio`: `matched.size / totalSkillsMentioned`. -/
def overallRatio (client : CandidateProfile) (job : NormalizedJob) : ℚ :=
  ((matchedSkills client job).length : ℚ) / (totalSkillsMentioned client : ℚ)

/-- The skill sub-score (section 2 of `scoreJobForClient`), clamped to
`[0, 40]`. -/
def skillScore (client : CandidateProfile) (job : NormalizedJob) : ℚ :=
  clamp
    (if 0 < (mustHave client).length then
      (((mustHaveRatio client job).getD 0) * (7/10) + overallRatio client job * (3/10)) * 40
    else overallRatio client job * 40) 0 40

/-- The skill-quality reason, thresholded on the rounded skill score. -/
def skillReason (client : CandidateProfile) (job : NormalizedJob) : String :=
  if 28 ≤ jsRound (skillScore client job) then "Strong skill match"
  else if 18 ≤ jsRound (skillScore client job) then "Moderate skill match"
  else "Weak skill match"

/-- The `preferredTitles` list after `.filter(Boolean)`. -/
def preferredTitles (client : CandidateProfile) : List String :=
  client.preferredTitles.filter (fun t => t ≠ "")

/-- The `best` accumulator of the title section: the maximal clamped
Jaccard-plus-synonym-bonus over all preferred titles. -/
def titleBest (client : CandidateProfile) (job : NormalizedJob) : ℚ :=
  (preferredTitles client).foldl
    (fun best t =>
      let pref := normalizeText t
      let sim := jaccard (tokens job.title) (tokens pref)
      let jobGroup := mapTitleToGroup job.title
      let prefGroup := mapTitleToGroup pref
      let groupBonus : ℚ :=
        if jobGroup ≠ "" ∧ prefGroup ≠ "" ∧ jobGroup = prefGroup then 1/4 else 0
      jsMax best (clamp (sim + groupBonus) 0 1)) 0

/-- The title sub-score (section 3 of `scoreJobForClient`), clamped to
`[0, 20]`; a flat 10 when there are no preferred titles. -/
def titleScore (client : CandidateProfile) (job : NormalizedJob) : ℚ :=
  clamp
    (if 0 < (preferredTitles client).length then titleBest client job * 20 else 10) 0 20

/-- The title-relevance reason, thresholded on the rounded title score. -/
def titleReason (client : CandidateProfile) (job : NormalizedJob) : String :=
  if 16 ≤ jsRound (titleScore client job) then "Title matches preference well"
  else if 10 ≤ jsRound (titleScore client job) then "Title is somewhat relevant"
  else "Title relevance is low"

/-- `overlap` of the salary section: overlap of the effective client and job
salary ranges (missing client bounds default to `0` / `MAX_SAFE_INTEGER`,
missing job bounds to the other bound, then `0` / `MAX_SAFE_INTEGER`). -/
def salaryOverlap (client : CandidateProfile) (job : NormalizedJob) : ℚ :=
  let clientLow := client.salaryMin.getD 0
  let clientHigh := client.salaryMax.getD maxSafeInteger
  let jobLow := job.salaryMin.getD (job.salaryMax.getD 0)
  let jobHigh := job.salaryMax.getD (job.salaryMin.getD maxSafeInteger)
  jsMax 0 (jsMin clientHigh jobHigh - jsMax clientLow jobLow)

/-- `jobRange` of the salary section: `max(1, jobHigh - jobLow)`. -/
def salaryJobRange (job : NormalizedJob) : ℚ :=
  let jobLow := job.salaryMin.getD (job.salaryMax.getD 0)
  let jobHigh := job.salaryMax.getD (job.salaryMin.getD maxSafeInteger)
  jsMax 1 (jobHigh - jobLow)

/-- `overlapRatio` of the salary section. -/
def salaryOverlapRatio (client : CandidateProfile) (job : NormalizedJob) : ℚ :=
  salaryOverlap client job / salaryJobRange job

/-- The salary section (section 4 of `scoreJobForClient`): the salary
sub-score together with the reasons it pushes.  Branch selection uses JS
truthiness (`cMin || cMax`, `jMin || jMax`), so a bound equal to `0` acts
as absent. -/
def salaryCalc (client : CandidateProfile) (job : NormalizedJob) : ℚ × List String :=
  if (truthyNum client.salaryMin || truthyNum client.salaryMax) &&
     (truthyNum job.salaryMin || truthyNum job.salaryMax) then
    let s := clamp (salaryOverlapRatio client job * 20) 0 20
    if 14 ≤ s then (s, ["Salary range fits preference"])
    else if 8 ≤ s then (s, ["Salary range partially fits"])
    else (s, ["Salary likely outside preference"])
  else if truthyNum client.salaryMin || truthyNum client.salaryMax then
    (8, ["Salary unknown (cannot confirm fit)"])
  else (10, [])

/-- The work-type half of section 5 of `scoreJobForClient`. -/
def workTypeCalc (client : CandidateProfile) (job : NormalizedJob) : ℚ × List String :=
  let jobWorkType := jsLower job.workType
  let cWork := jsLower (jsOrStr client.workType "any")
  if cWork ≠ "any" then
    if jobWorkType = "" then (6, ["Work type unknown (cannot confirm remote/onsite/hybrid)"])
    else if jobWorkType = cWork then (10, ["Work type matches preference"])
    else (0, ["Work type does not match preference"])
  else (10, [])

/-- The country part of the location half of section 5: `locationScore`
right after the `preferredCountries` block. -/
def locationCountryCalc (client : CandidateProfile) (job : NormalizedJob) : ℚ × List String :=
  let jobCountry := jsLower job.country
  let cCountries := client.preferredCountries.map normalizeText
  if 0 < cCountries.length then
    if jobCountry = "" then (6, ["Country unknown (cannot confirm location)"])
    else if cCountries.contains jobCountry then (10, ["Country matches preference"])
    else (0, ["Country does not match preference"])
  else (10, [])

/-- The full location half of section 5: the country block followed by the
city adjustments. -/
def locationCalc (client : CandidateProfile) (job : NormalizedJob) : ℚ × List String :=
  let base := locationCountryCalc client job
  let jobCity := jsLower job.city
  let cCities := client.preferredCities.map normalizeText
  if 0 < base.1 ∧ 0 < cCities.length then
    if jobCity = "" then (jsMin base.1 8, base.2 ++ ["City unknown (cannot confirm city)"])
    else if cCities.contains jobCity then (jsMin 10 (base.1 + 2), base.2 ++ ["City matches preference"])
    else (jsMax 0 (base.1 - 4), base.2 ++ ["City differs from preference"])
  else base

/-- `locWorkScore`: work type plus location, clamped to `[0, 20]`. -/
def locWorkScore (client : CandidateProfile) (job : NormalizedJob) : ℚ :=
  clamp ((workTypeCalc client job).1 + (locationCalc client job).1) 0 20

/-- The industry section (section 6 of `scoreJobForClient`). -/
def industryCalc (client : CandidateProfile) (job : NormalizedJob) : ℚ × List String :=
  let prefIndustries := (client.preferredIndustries.map normalizeText).filter (fun s => s ≠ "")
  if 0 < prefIndustries.length then
    let ji := normalizeText job.industry
    if ji = "" then (4, ["Industry unknown (cannot confirm fit)"])
    else if prefIndustries.any (fun p => strIncludes ji p || strIncludes p ji) then
      (10, ["Industry matches preference"])
    else (2, ["Industry may not match preference"])
  else (5, [])

/-- `raw`: the sum of the five sub-scores before rounding and gating. -/
def rawScore (client : CandidateProfile) (job : NormalizedJob) : ℚ :=
  skillScore client job + titleScore client job + (salaryCalc client job).1 +
  locWorkScore client job + (industryCalc client job).1

/-- The scoring orchestrator `scoreJobForClient` from `matchScore.js`. -/
def scoreJobForClient (client : CandidateProfile) (job : NormalizedJob) : ScoreResult :=
  let score : ℤ :=
    if hardReject client job then jsMinInt 49 (jsRound (rawScore client job))
    else jsRound (rawScore client job)
  { score := score
    pass := decide (70 ≤ score) && !(hardReject client job)
    hardReject := hardReject client job
    breakdown :=
      { mustHaveMatched := matchedMust client job
        mustHaveMissing := missingMust client job
        skillsMatched := matchedSkills client job
        mustHaveRatio := mustHaveRatio client job
        skillScore := jsRound (skillScore client job)
        titleScore := jsRound (titleScore client job)
        salaryScore := jsRound (salaryCalc client job).1
        locationWorkScore := jsRound (locWorkScore client job)
        industryScore := jsRound (industryCalc client job).1 }
    reasons :=
      mustHaveReasons client job ++ [skillReason client job] ++ [titleReason client job] ++
      (salaryCalc client job).2 ++ (workTypeCalc client job).2 ++
      (locationCalc client job).2 ++ (industryCalc client job).2 }

/-- Whether a reason string is one of the three skill-quality verdicts. -/
def isSkillQualityReason (r : String) : Bool :=
  r == "Strong skill match" || r == "Moderate skill match" || r == "Weak skill match"

/-- Whether a reason string is one of the three title-relevance verdicts. -/
def isTitleRelevanceReason (r : String) : Bool :=
  r == "Title matches preference well" || r == "Title is somewhat relevant" ||
  r == "Title relevance is low"

/-! Concrete inputs used by the claim theorems, their witnesses and their
counterexamples. -/

/-- A candidate matching `c1job` perfectly on all five categories. -/
def c1client : CandidateProfile :=
  { skills := ["react"], preferredTitles := ["react developer"],
    preferredIndustries := ["tech"], preferredCountries := ["usa"],
    workType := "remote", salaryMin := some 100000, salaryMax := some 200000 }

/-- A job matching `c1client` perfectly on all five categories. -/
def c1job : NormalizedJob :=
  { title := "react developer", industry := "tech", workType := "remote",
    country := "usa", salaryMin := some 120000, salaryMax := some 180000 }

/-- A candidate whose single must-have skill normalizes to the empty
string. -/
def cex2client : CandidateProfile := { mustHaveSkills := ["???"] }

/-- A job whose text does not contain the text `???`. -/
def cex2job : NormalizedJob := { title := "anything" }

/-- A candidate with a must-have skill no job text below contains. -/
def w2client : CandidateProfile := { mustHaveSkills := ["python"] }

/-- A job with no text at all. -/
def w2job : NormalizedJob := {}

/-- A candidate matching `w3job` perfectly (score 110, hence passing). -/
def w3client : CandidateProfile :=
  { skills := ["react"], preferredTitles := ["react developer"],
    preferredIndustries := ["tech"], preferredCountries := ["usa"],
    workType := "remote", salaryMin := some 100000, salaryMax := some 200000 }

/-- A job matching `w3client` perfectly. -/
def w3job : NormalizedJob :=
  { title := "react developer", industry := "tech", workType := "remote",
    country := "usa", salaryMin := some 120000, salaryMax := some 180000 }

/-- A candidate with three skills of which `cex4job` matches one, so that
the skill sub-score `40/3` is fractional. -/
def cex4client : CandidateProfile := { skills := ["react", "node", "python"] }

/-- A job matching exactly one of `cex4client`'s three skills. -/
def cex4job : NormalizedJob := { title := "react" }

/-- A candidate who prefers remote work. -/
def c5client : CandidateProfile := { workType := "remote" }

/-- A job whose work type is the schema's `"unknown"` value (the default
`normalizeJob` produces when the work type cannot be determined). -/
def c5job : NormalizedJob := { workType := "unknown" }

/-- A candidate specifying `salaryMin = 0` (a non-negative integer bound
accepted by the profile schema) and no other salary bound. -/
def cex6client : CandidateProfile := { salaryMin := some 0 }

/-- A job specifying no salary at all. -/
def cex6job : NormalizedJob := {}

/-- A candidate with a positive salary bound. -/
def w6aclient : CandidateProfile := { salaryMin := some 50000 }

/-- A job with no salary data. -/
def w6ajob : NormalizedJob := {}

/-- A candidate with no salary bounds. -/
def w6bclient : CandidateProfile := {}

/-- A job that does specify a salary. -/
def w6bjob : NormalizedJob := { salaryMin := some 60000, salaryMax := some 90000 }

/-- A candidate preferring a country written with a trailing `!`. -/
def cex7client : CandidateProfile := { preferredCountries := ["Germany!"] }

/-- A job whose country field carries the same trailing `!`. -/
def cex7job : NormalizedJob := { country := "Germany!" }

/-- A candidate preferring Germany. -/
def w7client : CandidateProfile := { preferredCountries := ["Germany"] }

/-- A job located in Germany. -/
def w7job : NormalizedJob := { country := "Germany" }

/-- The candidate side of the spec's salary-overlap scenario. -/
def c8client : CandidateProfile := { salaryMin := some 80000, salaryMax := some 120000 }

/-- The job side of the spec's salary-overlap scenario. -/
def c8job : NormalizedJob := { salaryMin := some 100000, salaryMax := some 150000 }

/-- An arbitrary candidate used to instantiate determinism. -/
def w9client : CandidateProfile := { skills := ["java"], workType := "hybrid" }

/-- An arbitrary job used to instantiate determinism. -/
def w9job : NormalizedJob := { title := "java developer", workType := "onsite" }

/-! General lemmas about the embedded operations. -/

/-- The executable `jsMax` is the lattice `max`. -/
theorem jsMax_eq (a b : ℚ) : jsMax a b = max a b := (max_def a b).symm

/-- The executable `jsMin` is the lattice `min`. -/
theorem jsMin_eq (a b : ℚ) : jsMin a b = min a b := (min_def a b).symm

/-- The integer `jsMinInt` is bounded by its left argument. -/
theorem jsMinInt_le_left (a b : ℤ) : jsMinInt a b ≤ a := by
  unfold jsMinInt
  split
  · exact le_refl a
  · next h => exact (Int.not_le.mp h).le

/-- A clamped value is at least the lower clamp bound. -/
theorem le_clamp (n mn mx : ℚ) : mn ≤ clamp n mn mx := by
  rw [clamp, jsMax_eq]
  exact le_max_left mn _

/-- A clamped value is at most the upper clamp bound. -/
theorem clamp_le (n mn mx : ℚ) (h : mn ≤ mx) : clamp n mn mx ≤ mx := by
  rw [clamp, jsMax_eq, jsMin_eq]
  exact max_le h (min_le_left mx n)

/-- The `score` field of the result, unfolded. -/
theorem scoreResult_score (c : CandidateProfile) (j : NormalizedJob) :
    (scoreJobForClient c j).score =
      if hardReject c j then jsMinInt 49 (jsRound (rawScore c j))
      else jsRound (rawScore c j) := rfl

/-- The `hardReject` field of the result, unfolded. -/
theorem scoreResult_hardReject (c : CandidateProfile) (j : NormalizedJob) :
    (scoreJobForClient c j).hardReject = hardReject c j := rfl

/-- The `pass` field of the result, unfolded. -/
theorem scoreResult_pass (c : CandidateProfile) (j : NormalizedJob) :
    (scoreJobForClient c j).pass =
      (decide (70 ≤ (scoreJobForClient c j).score) && !(hardReject c j)) := rfl

/-- The `reasons` field of the result, unfolded. -/
theorem scoreResult_reasons (c : CandidateProfile) (j : NormalizedJob) :
    (scoreJobForClient c j).reasons =
      mustHaveReasons c j ++ [skillReason c j] ++ [titleReason c j] ++
      (salaryCalc c j).2 ++ (workTypeCalc c j).2 ++
      (locationCalc c j).2 ++ (industryCalc c j).2 := rfl

/-- C1: the claim says the score of `scoreJobForClient` always lies in
`[0, 100]`.  The code (whose own header comment also documents `0–100`)
returns 110 for a pair matching perfectly on all five categories, because
the five caps sum to 40+20+20+20+10 = 110 and no final clamp is applied. -/
theorem c1_perfect_match_scores_110 :
    (scoreJobForClient c1client c1job).score = 110 ∧
    100 < (scoreJobForClient c1client c1job).score ∧
    (scoreJobForClient c1client c1job).pass = true := by decide

/-- C3: the `pass` field is true exactly when the score is at least 70 and
the pair is not hard-rejected (both directions). -/
theorem c3_pass_iff_score_and_no_reject (c : CandidateProfile) (j : NormalizedJob) :
    (scoreJobForClient c j).pass = true ↔
      70 ≤ (scoreJobForClient c j).score ∧ (scoreJobForClient c j).hardReject = false := by
  rw [scoreResult_pass, scoreResult_hardReject]
  simp [Bool.and_eq_true, decide_eq_true_eq, Bool.not_eq_true']

/-- Witness for C3 at a concrete passing pair. -/
theorem c3_witness :
    70 ≤ (scoreJobForClient w3client w3job).score ∧
    (scoreJobForClient w3client w3job).hardReject = false :=
  (c3_pass_iff_score_and_no_reject w3client w3job).mp (by decide)

/-- C5: the claim says a job whose work type is unknown yields a work-type
sub-score of 6.  The schema's only representation of an unknown work type
is the literal string `"unknown"` (`normalizedJobSchema` defaults to it and
`mapWorkType` never yields an empty string), yet the code tests for the
empty string, so a schema-valid unknown job falls into the mismatch branch
and scores 0 with the mismatch reason instead. -/
theorem c5_unknown_worktype_scored_as_mismatch :
    c5job.workType = "unknown" ∧ c5client.workType = "remote" ∧
    workTypeCalc c5client c5job = (0, ["Work type does not match preference"]) ∧
    (scoreJobForClient c5client c5job).reasons.contains
      "Work type unknown (cannot confirm remote/onsite/hybrid)" = false := by decide

/-- C8: the spec's salary-overlap scenario: client band `[80000, 120000]`,
job band `[100000, 150000]`, overlap 20000, job range 50000, ratio `2/5`,
salary sub-score 8, reason "Salary range partially fits". -/
theorem c8_salary_overlap_scenario :
    salaryOverlap c8client c8job = 20000 ∧
    salaryJobRange c8job = 50000 ∧
    salaryOverlapRatio c8client c8job = 2/5 ∧
    salaryCalc c8client c8job = (8, ["Salary range partially fits"]) ∧
    (scoreJobForClient c8client c8job).breakdown.salaryScore = 8 ∧
    (scoreJobForClient c8client c8job).reasons.contains "Salary range partially fits" = true := by
  decide

/-- C9: `scoreJobForClient` is deterministic: two calls on equal inputs
return equal results in every field. -/
theorem c9_deterministic (c c' : CandidateProfile) (j j' : NormalizedJob)
    (hc : c = c') (hj : j = j') :
    scoreJobForClient c j = scoreJobForClient c' j' := by
  rw [hc, hj]

/-- Witness for C9 at a concrete input pair. -/
theorem c9_witness :
    scoreJobForClient w9client w9job = scoreJobForClient w9client w9job :=
  c9_deterministic w9client w9client w9job w9job rfl rfl

/-- C2 counterexample: a candidate whose `mustHaveSkills` list is the
non-empty `["???"]`.  The skill normalizes to the empty string, so the
matcher (which requires length ≥ 2) matches none of the must-have skills —
fewer than 60% — yet `hardReject` is false, because the code drops
empty-normalizing skills before the gate.  This refutes the claim's
left-to-right reading on the raw `mustHaveSkills` list. -/
theorem c2_counterexample :
    cex2client.mustHaveSkills = ["???"] ∧
    extractMatchedSkills (jobTextForSkills cex2job) (cex2client.mustHaveSkills.map normalizeText) = [] ∧
    matchedMust cex2client cex2job = [] ∧
    (scoreJobForClient cex2client cex2job).hardReject = false ∧
    (scoreJobForClient cex2client cex2job).score = 45 := by decide

/-- C2 (amended): `hardReject` is true iff the normalized must-have list
(skills whose normalization is non-empty) is non-empty and the fraction of
it matched in the job text is below `3/5`; and a hard-rejected result's
score is at most 49. -/
theorem c2_hard_reject_iff_and_cap (c : CandidateProfile) (j : NormalizedJob) :
    ((scoreJobForClient c j).hardReject = true ↔
      mustHave c ≠ [] ∧
      ((matchedMust c j).length : ℚ) / ((mustHave c).length : ℚ) < 3/5) ∧
    ((scoreJobForClient c j).hardReject = true → (scoreJobForClient c j).score ≤ 49) := by
  constructor
  · rw [scoreResult_hardReject]
    unfold hardReject
    rw [Bool.and_eq_true, decide_eq_true_eq, decide_eq_true_eq, List.length_pos]
  · intro h
    rw [scoreResult_hardReject] at h
    rw [scoreResult_score, if_pos h]
    exact jsMinInt_le_left 49 _

/-- Witness for C2 at a concrete hard-rejected pair. -/
theorem c2_witness :
    (scoreJobForClient w2client w2job).hardReject = true ∧
    (scoreJobForClient w2client w2job).score ≤ 49 :=
  ⟨by decide, (c2_hard_reject_iff_and_cap w2client w2job).2 (by decide)⟩

/-- C6 counterexample: a candidate specifying `salaryMin = 0` (a legal
non-negative integer bound) and a job with no salary.  The claim demands a
salary sub-score of 8 with the unknown reason, but JS truthiness treats the
`0` bound as absent and the code returns the neutral 10 with no reason. -/
theorem c6_counterexample :
    cex6client.salaryMin = some 0 ∧ cex6client.salaryMax = none ∧
    cex6job.salaryMin = none ∧ cex6job.salaryMax = none ∧
    salaryCalc cex6client cex6job = (10, []) ∧
    (salaryCalc cex6client cex6job).1 ≠ 8 := by decide

/-- C6 (amended): if the candidate has at least one truthy (present and
nonzero) salary bound and the job has none at all, the salary sub-score is
8 with the unknown reason; and whenever both candidate bounds are absent,
the salary sub-score is the neutral 10 with no reason (in particular when
only the job specifies a salary). -/
theorem c6_salary_unknown_cases (c : CandidateProfile) (j : NormalizedJob) :
    ((truthyNum c.salaryMin || truthyNum c.salaryMax) = true →
      j.salaryMin = none → j.salaryMax = none →
      salaryCalc c j = (8, ["Salary unknown (cannot confirm fit)"])) ∧
    (c.salaryMin = none → c.salaryMax = none → salaryCalc c j = (10, [])) := by
  constructor
  · intro hc hm hM
    have hj : (truthyNum j.salaryMin || truthyNum j.salaryMax) = false := by
      rw [hm, hM]; rfl
    unfold salaryCalc
    rw [hj, Bool.and_false, hc]
    rfl
  · intro hm hM
    have hcf : (truthyNum c.salaryMin || truthyNum c.salaryMax) = false := by
      rw [hm, hM]; rfl
    unfold salaryCalc
    rw [hcf, Bool.false_and]
    rfl

/-- Witness for C6 at concrete pairs exercising both branches. -/
theorem c6_witness :
    salaryCalc w6aclient w6ajob = (8, ["Salary unknown (cannot confirm fit)"]) ∧
    salaryCalc w6bclient w6bjob = (10, []) :=
  ⟨(c6_salary_unknown_cases w6aclient w6ajob).1 (by decide) rfl rfl,
   (c6_salary_unknown_cases w6bclient w6bjob).2 rfl rfl⟩

/-- C7 counterexample: the preferred country and the job country are the
same string `"Germany!"`.  Under the claim's "exact equality on normalized
strings" both normalize to `"germany"`, so the sub-score should be 10; but
the code only lower-cases the job side (`"germany!"`), the membership test
fails, and the sub-score is 0. -/
theorem c7_counterexample :
    (cex7client.preferredCountries.map normalizeText).contains
      (normalizeText cex7job.country) = true ∧
    jsLower cex7job.country ≠ "" ∧
    locationCountryCalc cex7client cex7job = (0, ["Country does not match preference"]) := by
  decide

/-- C7 (amended): with a non-empty `preferredCountries`, the country
sub-component is 6 when the lower-cased job country is empty, 10 when the
lower-cased (not fully normalized) job country occurs verbatim among the
normalized preferred countries, and 0 otherwise — each with its reason. -/
theorem c7_country_trichotomy (c : CandidateProfile) (j : NormalizedJob)
    (hne : c.preferredCountries ≠ []) :
    (jsLower j.country = "" →
      locationCountryCalc c j = (6, ["Country unknown (cannot confirm location)"])) ∧
    (jsLower j.country ≠ "" →
      (c.preferredCountries.map normalizeText).contains (jsLower j.country) = true →
      locationCountryCalc c j = (10, ["Country matches preference"])) ∧
    (jsLower j.country ≠ "" →
      (c.preferredCountries.map normalizeText).contains (jsLower j.country) = false →
      locationCountryCalc c j = (0, ["Country does not match preference"])) := by
  have hlen : 0 < (c.preferredCountries.map normalizeText).length := by
    rw [List.length_map]
    exact List.length_pos.mpr hne
  refine ⟨?_, ?_, ?_⟩
  · intro h
    simp only [locationCountryCalc]
    rw [if_pos hlen, if_pos h]
  · intro h hm
    simp only [locationCountryCalc]
    rw [if_pos hlen, if_neg h, if_pos hm]
  · intro h hm
    simp only [locationCountryCalc]
    rw [if_pos hlen, if_neg h, if_neg (by rw [hm]; decide)]

/-- Witness for C7 at a concrete matching pair. -/
theorem c7_witness :
    locationCountryCalc w7client w7job = (10, ["Country matches preference"]) :=
  (c7_country_trichotomy w7client w7job (by decide)).2.1 (by decide) (by decide)

/-- The salary sub-score lies in `[0, 20]` in every branch. -/
theorem salaryCalc_fst_bounds (c : CandidateProfile) (j : NormalizedJob) :
    0 ≤ (salaryCalc c j).1 ∧ (salaryCalc c j).1 ≤ 20 := by
  simp only [salaryCalc]
  split
  · split
    · exact ⟨le_clamp _ 0 20, clamp_le _ 0 20 (by norm_num)⟩
    · split
      · exact ⟨le_clamp _ 0 20, clamp_le _ 0 20 (by norm_num)⟩
      · exact ⟨le_clamp _ 0 20, clamp_le _ 0 20 (by norm_num)⟩
  · split
    · exact ⟨by norm_num, by norm_num⟩
    · exact ⟨by norm_num, by norm_num⟩

/-- The industry sub-score lies in `[0, 10]` in every branch. -/
theorem industryCalc_fst_bounds (c : CandidateProfile) (j : NormalizedJob) :
    0 ≤ (industryCalc c j).1 ∧ (industryCalc c j).1 ≤ 10 := by
  simp only [industryCalc]
  split
  · split
    · exact ⟨by norm_num, by norm_num⟩
    · split
      · exact ⟨by norm_num, by norm_num⟩
      · exact ⟨by norm_num, by norm_num⟩
  · exact ⟨by norm_num, by norm_num⟩

/-- C4 counterexample: with three client skills of which the job matches
one, the skill sub-score is the fractional `40/3`, the raw score is
`175/3`, and the breakdown's five individually rounded sub-score values sum
to 58 ≠ `175/3`: the stored breakdown values do not sum to the raw score. -/
theorem c4_counterexample :
    rawScore cex4client cex4job = 175/3 ∧
    (((scoreJobForClient cex4client cex4job).breakdown.skillScore +
      (scoreJobForClient cex4client cex4job).breakdown.titleScore +
      (scoreJobForClient cex4client cex4job).breakdown.salaryScore +
      (scoreJobForClient cex4client cex4job).breakdown.locationWorkScore +
      (scoreJobForClient cex4client cex4job).breakdown.industryScore : ℤ) : ℚ) ≠
      rawScore cex4client cex4job := by decide

/-- C4 (amended): each of the five sub-scores is clamped to its cap (skill
40, title 20, salary 20, location/work 20, industry 10); the raw score is
their sum; the final score is that sum rounded, capped at 49 under a hard
reject; and the breakdown stores each sub-score individually rounded (the
unrounded sub-scores, not the stored rounded values, sum to the raw
score). -/
theorem c4_score_is_gated_rounded_sum (c : CandidateProfile) (j : NormalizedJob) :
    (0 ≤ skillScore c j ∧ skillScore c j ≤ 40) ∧
    (0 ≤ titleScore c j ∧ titleScore c j ≤ 20) ∧
    (0 ≤ (salaryCalc c j).1 ∧ (salaryCalc c j).1 ≤ 20) ∧
    (0 ≤ locWorkScore c j ∧ locWorkScore c j ≤ 20) ∧
    (0 ≤ (industryCalc c j).1 ∧ (industryCalc c j).1 ≤ 10) ∧
    rawScore c j = skillScore c j + titleScore c j + (salaryCalc c j).1 +
      locWorkScore c j + (industryCalc c j).1 ∧
    (scoreJobForClient c j).score =
      (if (scoreJobForClient c j).hardReject then jsMinInt 49 (jsRound (rawScore c j))
       else jsRound (rawScore c j)) ∧
    (scoreJobForClient c j).breakdown.skillScore = jsRound (skillScore c j) ∧
    (scoreJobForClient c j).breakdown.titleScore = jsRound (titleScore c j) ∧
    (scoreJobForClient c j).breakdown.salaryScore = jsRound (salaryCalc c j).1 ∧
    (scoreJobForClient c j).breakdown.locationWorkScore = jsRound (locWorkScore c j) ∧
    (scoreJobForClient c j).breakdown.industryScore = jsRound (industryCalc c j).1 :=
  ⟨⟨le_clamp _ 0 40, clamp_le _ 0 40 (by norm_num)⟩,
   ⟨le_clamp _ 0 20, clamp_le _ 0 20 (by norm_num)⟩,
   salaryCalc_fst_bounds c j,
   ⟨le_clamp _ 0 20, clamp_le _ 0 20 (by norm_num)⟩,
   industryCalc_fst_bounds c j,
   rfl, rfl, rfl, rfl, rfl, rfl, rfl⟩

/-- Strings of different lengths are not `==`. -/
theorem beq_false_of_length_ne (a b : String) (h : ¬ a.length = b.length) :
    (a == b) = false :=
  beq_eq_false_iff_ne.mpr (fun e => h (by rw [e]))

/-- Appending can only lengthen a string. -/
theorem string_append_length_ge (a b : String) : a.length ≤ (a ++ b).length := by
  rw [String.length_append]
  exact Nat.le_add_right _ _

/-- The hard-reject reason is at least 30 characters long, whatever the
missing skills are. -/
theorem rejectedReason_long (m : List String) : 30 ≤ (rejectedReason m).length := by
  unfold rejectedReason
  calc (30:ℕ) ≤ ("Rejected: missing must-have skills (").length := by decide
  _ ≤ (("Rejected: missing must-have skills (" ++
        String.intercalate ", " (m.take 8))).length := string_append_length_ge _ _
  _ ≤ ((("Rejected: missing must-have skills (" ++ String.intercalate ", " (m.take 8)) ++
        (if 8 < m.length then "..." else ""))).length := string_append_length_ge _ _
  _ ≤ _ := string_append_length_ge _ _

/-- The missing-must-have warning is at least 30 characters long. -/
theorem warningReason_long (m : List String) : 30 ≤ (warningReason m).length := by
  unfold warningReason
  calc (30:ℕ) ≤ ("Warning: missing some must-have skills (").length := by decide
  _ ≤ (("Warning: missing some must-have skills (" ++
        String.intercalate ", " m)).length := string_append_length_ge _ _
  _ ≤ _ := string_append_length_ge _ _

/-- A reason of length at least 30 is neither a skill-quality nor a
title-relevance verdict (all six verdicts are shorter). -/
theorem reason_neutral_of_long (r : String) (h : 30 ≤ r.length) :
    isSkillQualityReason r = false ∧ isTitleRelevanceReason r = false := by
  have f : ∀ lit : String, lit.length < 30 → (r == lit) = false := fun lit hl =>
    beq_false_of_length_ne r lit (by omega)
  have h1 := f "Strong skill match" (by decide)
  have h2 := f "Moderate skill match" (by decide)
  have h3 := f "Weak skill match" (by decide)
  have h4 := f "Title matches preference well" (by decide)
  have h5 := f "Title is somewhat relevant" (by decide)
  have h6 := f "Title relevance is low" (by decide)
  unfold isSkillQualityReason isTitleRelevanceReason
  rw [h1, h2, h3, h4, h5, h6]
  exact ⟨rfl, rfl⟩

/-- The must-have section never emits a skill-quality or title-relevance
verdict. -/
theorem mustHaveReasons_neutral (c : CandidateProfile) (j : NormalizedJob) :
    ∀ r ∈ mustHaveReasons c j,
      isSkillQualityReason r = false ∧ isTitleRelevanceReason r = false := by
  intro r hr
  simp only [mustHaveReasons] at hr
  split at hr
  · split at hr
    · simp at hr
      subst hr
      exact reason_neutral_of_long _ (rejectedReason_long _)
    · split at hr
      · simp at hr
        subst hr
        exact reason_neutral_of_long _ (warningReason_long _)
      · simp at hr
  · simp at hr

/-- The salary section never emits a skill-quality or title-relevance
verdict. -/
theorem salaryCalc_snd_neutral (c : CandidateProfile) (j : NormalizedJob) :
    ∀ r ∈ (salaryCalc c j).2,
      isSkillQualityReason r = false ∧ isTitleRelevanceReason r = false := by
  intro r hr
  simp only [salaryCalc] at hr
  split at hr
  · split at hr
    · simp at hr
      subst hr
      exact ⟨by decide, by decide⟩
    · split at hr
      · simp at hr
        subst hr
        exact ⟨by decide, by decide⟩
      · simp at hr
        subst hr
        exact ⟨by decide, by decide⟩
  · split at hr
    · simp at hr
      subst hr
      exact ⟨by decide, by decide⟩
    · simp at hr

/-- The work-type section never emits a skill-quality or title-relevance
verdict. -/
theorem workTypeCalc_snd_neutral (c : CandidateProfile) (j : NormalizedJob) :
    ∀ r ∈ (workTypeCalc c j).2,
      isSkillQualityReason r = false ∧ isTitleRelevanceReason r = false := by
  intro r hr
  simp only [workTypeCalc] at hr
  split at hr
  · split at hr
    · simp at hr
      subst hr
      exact ⟨by decide, by decide⟩
    · split at hr
      · simp at hr
        subst hr
        exact ⟨by decide, by decide⟩
      · simp at hr
        subst hr
        exact ⟨by decide, by decide⟩
  · simp at hr

/-- The country block never emits a skill-quality or title-relevance
verdict. -/
theorem locationCountryCalc_snd_neutral (c : CandidateProfile) (j : NormalizedJob) :
    ∀ r ∈ (locationCountryCalc c j).2,
      isSkillQualityReason r = false ∧ isTitleRelevanceReason r = false := by
  intro r hr
  simp only [locationCountryCalc] at hr
  split at hr
  · split at hr
    · simp at hr
      subst hr
      exact ⟨by decide, by decide⟩
    · split at hr
      · simp at hr
        subst hr
        exact ⟨by decide, by decide⟩
      · simp at hr
        subst hr
        exact ⟨by decide, by decide⟩
  · simp at hr

/-- The whole location section never emits a skill-quality or
title-relevance verdict. -/
theorem locationCalc_snd_neutral (c : CandidateProfile) (j : NormalizedJob) :
    ∀ r ∈ (locationCalc c j).2,
      isSkillQualityReason r = false ∧ isTitleRelevanceReason r = false := by
  intro r hr
  simp only [locationCalc] at hr
  split at hr
  · split at hr
    · rcases List.mem_append.mp hr with h1 | h2
      · exact locationCountryCalc_snd_neutral c j r h1
      · simp at h2
        subst h2
        exact ⟨by decide, by decide⟩
    · split at hr
      · rcases List.mem_append.mp hr with h1 | h2
        · exact locationCountryCalc_snd_neutral c j r h1
        · simp at h2
          subst h2
          exact ⟨by decide, by decide⟩
      · rcases List.mem_append.mp hr with h1 | h2
        · exact locationCountryCalc_snd_neutral c j r h1
        · simp at h2
          subst h2
          exact ⟨by decide, by decide⟩
  · exact locationCountryCalc_snd_neutral c j r hr

/-- The industry section never emits a skill-quality or title-relevance
verdict. -/
theorem industryCalc_snd_neutral (c : CandidateProfile) (j : NormalizedJob) :
    ∀ r ∈ (industryCalc c j).2,
      isSkillQualityReason r = false ∧ isTitleRelevanceReason r = false := by
  intro r hr
  simp only [industryCalc] at hr
  split at hr
  · split at hr
    · simp at hr
      subst hr
      exact ⟨by decide, by decide⟩
    · split at hr
      · simp at hr
        subst hr
        exact ⟨by decide, by decide⟩
      · simp at hr
        subst hr
        exact ⟨by decide, by decide⟩
  · simp at hr

/-- The skill reason is always one of the three skill-quality verdicts. -/
theorem skillReason_is_quality (c : CandidateProfile) (j : NormalizedJob) :
    isSkillQualityReason (skillReason c j) = true := by
  unfold skillReason
  split
  · decide
  · split
    · decide
    · decide

/-- The skill reason is never a title-relevance verdict. -/
theorem skillReason_not_title (c : CandidateProfile) (j : NormalizedJob) :
    isTitleRelevanceReason (skillReason c j) = false := by
  unfold skillReason
  split
  · decide
  · split
    · decide
    · decide

/-- The title reason is always one of the three title-relevance verdicts. -/
theorem titleReason_is_title (c : CandidateProfile) (j : NormalizedJob) :
    isTitleRelevanceReason (titleReason c j) = true := by
  unfold titleReason
  split
  · decide
  · split
    · decide
    · decide

/-- The title reason is never a skill-quality verdict. -/
theorem titleReason_not_quality (c : CandidateProfile) (j : NormalizedJob) :
    isSkillQualityReason (titleReason c j) = false := by
  unfold titleReason
  split
  · decide
  · split
    · decide
    · decide

/-- C10: the reasons list always contains exactly one skill-quality verdict
and exactly one title-relevance verdict (hence it is never empty), however
sparse the inputs. -/
theorem c10_reasons_always_carry_verdicts (c : CandidateProfile) (j : NormalizedJob) :
    ((scoreJobForClient c j).reasons.filter isSkillQualityReason).length = 1 ∧
    ((scoreJobForClient c j).reasons.filter isTitleRelevanceReason).length = 1 ∧
    (scoreJobForClient c j).reasons ≠ [] := by
  have hA : (mustHaveReasons c j).filter isSkillQualityReason = [] :=
    List.filter_eq_nil_iff.mpr (fun r hr => by simp [(mustHaveReasons_neutral c j r hr).1])
  have hA' : (mustHaveReasons c j).filter isTitleRelevanceReason = [] :=
    List.filter_eq_nil_iff.mpr (fun r hr => by simp [(mustHaveReasons_neutral c j r hr).2])
  have hB : ((salaryCalc c j).2).filter isSkillQualityReason = [] :=
    List.filter_eq_nil_iff.mpr (fun r hr => by simp [(salaryCalc_snd_neutral c j r hr).1])
  have hB' : ((salaryCalc c j).2).filter isTitleRelevanceReason = [] :=
    List.filter_eq_nil_iff.mpr (fun r hr => by simp [(salaryCalc_snd_neutral c j r hr).2])
  have hC : ((workTypeCalc c j).2).filter isSkillQualityReason = [] :=
    List.filter_eq_nil_iff.mpr (fun r hr => by simp [(workTypeCalc_snd_neutral c j r hr).1])
  have hC' : ((workTypeCalc c j).2).filter isTitleRelevanceReason = [] :=
    List.filter_eq_nil_iff.mpr (fun r hr => by simp [(workTypeCalc_snd_neutral c j r hr).2])
  have hD : ((locationCalc c j).2).filter isSkillQualityReason = [] :=
    List.filter_eq_nil_iff.mpr (fun r hr => by simp [(locationCalc_snd_neutral c j r hr).1])
  have hD' : ((locationCalc c j).2).filter isTitleRelevanceReason = [] :=
    List.filter_eq_nil_iff.mpr (fun r hr => by simp [(locationCalc_snd_neutral c j r hr).2])
  have hE : ((industryCalc c j).2).filter isSkillQualityReason = [] :=
    List.filter_eq_nil_iff.mpr (fun r hr => by simp [(industryCalc_snd_neutral c j r hr).1])
  have hE' : ((industryCalc c j).2).filter isTitleRelevanceReason = [] :=
    List.filter_eq_nil_iff.mpr (fun r hr => by simp [(industryCalc_snd_neutral c j r hr).2])
  have hs : [skillReason c j].filter isSkillQualityReason = [skillReason c j] := by
    simp [List.filter_singleton, skillReason_is_quality c j]
  have hs' : [skillReason c j].filter isTitleRelevanceReason = [] := by
    simp [List.filter_singleton, skillReason_not_title c j]
  have ht : [titleReason c j].filter isSkillQualityReason = [] := by
    simp [List.filter_singleton, titleReason_not_quality c j]
  have ht' : [titleReason c j].filter isTitleRelevanceReason = [titleReason c j] := by
    simp [List.filter_singleton, titleReason_is_title c j]
  have k1 : ((scoreJobForClient c j).reasons.filter isSkillQualityReason).length = 1 := by
    rw [scoreResult_reasons]
    simp only [List.filter_append, hA, hB, hC, hD, hE, hs, ht]
    simp
  have k2 : ((scoreJobForClient c j).reasons.filter isTitleRelevanceReason).length = 1 := by
    rw [scoreResult_reasons]
    simp only [List.filter_append, hA', hB', hC', hD', hE', hs', ht']
    simp
  refine ⟨k1, k2, ?_⟩
  intro h
  rw [h] at k1
  simp at k1

end MatchScore

